import Mathlib

/-!
Verification development for the campus_yapper publish/subscribe broker.

The broker stores all state in a relational store with three tables:
events, subscriptions, and unread (the delivery markers).  Two backends
exist: src/campus_yapper/backends/sqlite.py (SQLiteYapper) and
src/campus_yapper/backends/postgres.py (PostgreSQLYapper).  Each backend
method issues autocommitted SQL statements; we embed the tables as Lean
lists kept in insertion order and each method as a pure state-passing
function over that embedding.  Methods that raise a Python exception are
embedded as functions returning an Except value together with the store
state left behind by the statements that did commit before the raise
(the store is in autocommit mode, so partial effects persist).

Timestamps (created_at columns) are written by the store and never read
by any query of the broker, so they are omitted from the row types.
Event ids are assigned by the store as an increasing counter (BIGSERIAL
in PostgreSQL, rowid in SQLite); we model them with a nextId counter.
Payloads pass through a string serialization and are treated as opaque
strings, as in the spec.

A central fact about the PostgreSQL backend: its cursor_to_dict helper
unconditionally calls cursor.fetchall(), and _execute and _executemany
always go through it.  In psycopg2, fetchall() after a statement that
produces no result set (CREATE TABLE, INSERT without RETURNING, DELETE,
and always after executemany) raises ProgrammingError: no results to
fetch.  With autocommit on, each statement commits before that raise, so
the store effect of every method is real while most methods then raise
to the caller; the embedding returns the committed state together with
the error.  Only a SELECT or an INSERT ... RETURNING lets _execute
return normally.
-/

namespace Yapper

/-- A row of the events table: id, label, data.  created_at is omitted:
no broker query ever reads it. -/
structure EventRow where
  id : Nat
  label : String
  data : String
deriving DecidableEq, Repr

/-- A row of the subscriptions table, with primary key (client_id, label).
created_at is omitted: never read. -/
structure SubRow where
  client_id : String
  label : String
deriving DecidableEq, Repr

/-- The Event value returned to callers of listen: Event(label, data)
from src/campus_yapper/base.py. -/
structure Event where
  label : String
  data : String
deriving DecidableEq, Repr

namespace PG

/-- A row of the PostgreSQL unread table (postgres.py _init_db): columns
client_id and event_id, primary key (client_id, event_id).  The declared
FOREIGN KEY (event_id) REFERENCES events(id) ON DELETE CASCADE is modelled;
the declared FOREIGN KEY (client_id) REFERENCES subscriptions(client_id)
names a non-unique column of subscriptions (whose key is (client_id, label)),
which the relational model gives no semantics to, so no cascade is modelled
for it. -/
structure MarkerRow where
  client_id : String
  event_id : Nat
deriving DecidableEq, Repr

/-- The PostgreSQL backend store state.  Tables are lists in insertion
order; nextId is the BIGSERIAL counter for events.id, starting at 1. -/
structure DB where
  events : List EventRow
  subscriptions : List SubRow
  unread : List MarkerRow
  nextId : Nat
deriving DecidableEq, Repr

/-- The freshly initialized store: all tables empty, event ids from 1. -/
def empty : DB := ⟨[], [], [], 1⟩

/-- SELECT client_id FROM subscriptions WHERE label = %s (the subscriber
snapshot read inside PostgreSQLYapper.emit; a SELECT produces a result
set, so this _execute returns normally). -/
def subscribersOf (db : DB) (label : String) : List String :=
  (db.subscriptions.filter (fun r => r.label == label)).map (fun r => r.client_id)

/-- The exception raised by cursor_to_dict (postgres.py line 26) whenever
_execute or _executemany ran a statement with no result set: fetchall()
then raises.  The statement itself has already committed (autocommit). -/
def noResultsErr : String := "psycopg2.ProgrammingError: no results to fetch"

/-- PostgreSQLYapper.emit: the INSERT ... RETURNING id succeeds (RETURNING
yields a result set), the subscriber SELECT succeeds, and then: with zero
subscribers the if-guard skips executemany and emit returns normally; with
at least one subscriber the marker inserts commit and cursor_to_dict then
raises at fetchall (executemany produces no result set).  Either way the
event row and any marker rows are committed. -/
def emit (db : DB) (label : String) (data : String) : Except String Unit × DB :=
  let eid := db.nextId
  let db1 : DB := { db with
    events := db.events ++ [⟨eid, label, data⟩],
    nextId := db.nextId + 1 }
  let subs := subscribersOf db1 label
  if subs.isEmpty then (Except.ok (), db1)
  else (Except.error noResultsErr, { db1 with unread := db1.unread ++ subs.map (fun c => ⟨c, eid⟩) })

/-- PostgreSQLYapper.subscribe: the INSERT ... ON CONFLICT (client_id,
label) DO NOTHING commits the upsert, and then cursor_to_dict raises at
fetchall (the INSERT has no RETURNING clause).  The caller always sees
the exception; the row is in the store. -/
def subscribe (db : DB) (c : String) (label : String) : Except String Unit × DB :=
  if db.subscriptions.any (fun r => r.client_id == c && r.label == label)
  then (Except.error noResultsErr, db)
  else (Except.error noResultsErr, { db with subscriptions := db.subscriptions ++ [⟨c, label⟩] })

/-- PostgreSQLYapper._sweep: the DELETE FROM events WHERE id NOT IN
(SELECT DISTINCT event_id FROM unread) commits, removing exactly the
events referenced by no marker (so the ON DELETE CASCADE on
unread.event_id fires on no row), and then cursor_to_dict raises at
fetchall.  Note that within the PostgreSQL backend both call sites of
_sweep (unsubscribe line 150 and stop) sit behind earlier raises and are
never reached. -/
def sweep (db : DB) : Except String Unit × DB :=
  (Except.error noResultsErr,
   { db with events := db.events.filter (fun e => db.unread.any (fun m => m.event_id == e.id)) })

/-- PostgreSQLYapper.unsubscribe: the DELETE of the matching subscription
rows (all rows of the client when label is the wildcard) commits, and then
cursor_to_dict raises at fetchall, so the self._sweep() call on line 150
is dead code: no sweep ever runs and orphaned events survive. -/
def unsubscribe (db : DB) (c : String) (label : String) : Except String Unit × DB :=
  if label == "*" then
    (Except.error noResultsErr,
     { db with subscriptions := db.subscriptions.filter (fun r => !(r.client_id == c)) })
  else
    (Except.error noResultsErr,
     { db with subscriptions :=
        db.subscriptions.filter (fun r => !(r.client_id == c && r.label == label)) })

/-- PostgreSQLYapper._clear_unread: the DELETE FROM unread WHERE
client_id = %s commits, and then cursor_to_dict raises at fetchall. -/
def clear_unread (db : DB) (c : String) : Except String Unit × DB :=
  (Except.error noResultsErr,
   { db with unread := db.unread.filter (fun m => !(m.client_id == c)) })

/-- PostgreSQLYapper.listen: the join SELECT (events JOIN unread, no
ORDER BY) succeeds and its rows are fetched, but the subsequent
self._clear_unread() commits its DELETE and raises, so the return
statement building the Event list never executes: listen never returns
events to any caller.  The committed effect is exactly the per-client
marker delete. -/
def listen (db : DB) (c : String) : Except String (List Event) × DB :=
  (Except.error noResultsErr, (clear_unread db c).2)

/-- PostgreSQLYapper.stop: the first statement sequence, self.listen(),
raises inside _clear_unread after committing the marker delete, so
unsubscribe with the wildcard, _sweep and the base class stop (which
would set running to False) never run: subscriptions survive and the
running flag is untouched. -/
def stop (db : DB) (c : String) (running : Bool) : Except String Unit × DB × Bool :=
  (Except.error noResultsErr, (listen db c).2, running)

/-- One broker operation against the shared store, for reachability; each
constructor stands for the committed store effect of the method, whether
or not the method then raises.  PostgreSQLYapper.stop commits nothing
beyond listen, so it adds no reachable store states.  The sweep
constructor stands for the committed DELETE of _sweep; in the PostgreSQL
backend no call site ever reaches _sweep, so including it only enlarges
the modelled reachable set beyond the program, which is the safe
direction for an invariant quantified over reachable states. -/
inductive Op where
  | emit (label data : String)
  | subscribe (c label : String)
  | unsubscribe (c label : String)
  | listen (c : String)
  | sweep
deriving DecidableEq, Repr

/-- The store state after one operation (outputs and exceptions
discarded; the state kept is the one the committed statements left). -/
def apply (db : DB) : Op → DB
  | .emit l d => (emit db l d).2
  | .subscribe c l => (subscribe db c l).2
  | .unsubscribe c l => (unsubscribe db c l).2
  | .listen c => (listen db c).2
  | .sweep => (sweep db).2

/-- A store state reachable from the freshly initialized store by some
sequence of broker operations. -/
def Reachable (db : DB) : Prop :=
  ∃ ops : List Op, db = ops.foldl apply empty

end PG

namespace SQLite

/-- A row of the SQLite unread table (sqlite.py _init_db): columns
client_id, label (NOT NULL) and event_id, primary key (client_id, event_id),
FOREIGN KEY (event_id) REFERENCES events(id) ON DELETE CASCADE and
FOREIGN KEY (client_id, label) REFERENCES subscriptions(client_id, label)
ON DELETE CASCADE.  Unlike the PostgreSQL backend, the marker row carries
a label column and a composite foreign key into subscriptions. -/
structure MarkerRow where
  client_id : String
  label : String
  event_id : Nat
deriving DecidableEq, Repr

/-- The SQLite backend store state. -/
structure DB where
  events : List EventRow
  subscriptions : List SubRow
  unread : List MarkerRow
  nextId : Nat
deriving DecidableEq, Repr

/-- The freshly initialized store. -/
def empty : DB := ⟨[], [], [], 1⟩

/-- SELECT client_id FROM subscriptions WHERE label = ? (the subscriber
snapshot read inside SQLiteYapper.emit). -/
def subscribersOf (db : DB) (label : String) : List String :=
  (db.subscriptions.filter (fun r => r.label == label)).map (fun r => r.client_id)

/-- The exception raised by the unread insert in SQLiteYapper.emit:
the code binds the whole fetched row (a dict, not the integer id) as the
event_id parameter, which sqlite3 cannot bind, and in any case the insert
omits the NOT NULL label column of unread. -/
def emitErr : String := "sqlite3.InterfaceError in emit: cannot bind a dict as event_id; unread.label is NOT NULL"

/-- SQLiteYapper.emit: insert the event row (RETURNING id; the code keeps
the whole fetched row as event_id), snapshot the subscribers, then
executemany an unread insert with one parameter tuple per subscriber.
With zero subscribers nothing is executed and emit succeeds; with at
least one subscriber the first insert raises and no marker row is ever
written.  The event row, already committed, persists either way. -/
def emit (db : DB) (label : String) (data : String) : Except String Unit × DB :=
  let eid := db.nextId
  let db1 : DB := { db with
    events := db.events ++ [⟨eid, label, data⟩],
    nextId := db.nextId + 1 }
  let subs := subscribersOf db1 label
  if subs.isEmpty then (Except.ok (), db1)
  else (Except.error emitErr, db1)

/-- SQLiteYapper.subscribe: INSERT OR IGNORE INTO subscriptions. -/
def subscribe (db : DB) (c : String) (label : String) : DB :=
  if db.subscriptions.any (fun r => r.client_id == c && r.label == label)
  then db
  else { db with subscriptions := db.subscriptions ++ [⟨c, label⟩] }

/-- SQLiteYapper._sweep: DELETE FROM events WHERE id NOT IN
(SELECT DISTINCT event_id FROM unread).  Deleted events are exactly the
unreferenced ones, so the event_id cascade fires on no marker row. -/
def sweep (db : DB) : DB :=
  { db with events := db.events.filter (fun e => db.unread.any (fun m => m.event_id == e.id)) }

/-- The exception raised by SQLiteYapper.unsubscribe with the wildcard
label: the one-placeholder DELETE statement is executed with the
two-element parameter tuple (client_id, label), so sqlite3 raises before
executing anything. -/
def unsubscribeErr : String := "sqlite3.ProgrammingError in unsubscribe: statement uses 1 binding, 2 supplied"

/-- SQLiteYapper.unsubscribe: with the wildcard label the DELETE raises a
parameter-count error before touching the store and _sweep is never
reached; with a concrete label the matching subscription row is deleted,
the composite foreign key cascades to the matching unread rows, and then
_sweep runs. -/
def unsubscribe (db : DB) (c : String) (label : String) : Except String Unit × DB :=
  if label == "*" then (Except.error unsubscribeErr, db)
  else
    let db1 : DB := { db with
      subscriptions := db.subscriptions.filter (fun r => !(r.client_id == c && r.label == label)),
      unread := db.unread.filter (fun m => !(m.client_id == c && m.label == label)) }
    (Except.ok (), sweep db1)

/-- SQLiteYapper._clear_unread: DELETE FROM unread WHERE client_id = ?. -/
def clear_unread (db : DB) (c : String) : DB :=
  { db with unread := db.unread.filter (fun m => !(m.client_id == c)) }

/-- The exception raised at the end of SQLiteYapper.listen: the code
builds its return value from result with key result, but _execute returns
a dict whose keys are fetchall, lastrowid and rowcount, so every call
raises KeyError. -/
def listenErr : String := "KeyError in listen: _execute result has keys fetchall, lastrowid, rowcount"

/-- SQLiteYapper.listen: the join SELECT succeeds, _clear_unread commits
the per-client marker delete, and then building the return value raises
KeyError (see listenErr).  The caller sees the exception; the markers of
the client are nevertheless gone. -/
def listen (db : DB) (c : String) : Except String (List Event) × DB :=
  (Except.error listenErr, clear_unread db c)

/-- The exception raised first thing in SQLiteYapper.stop: the method
calls self.pause(), and no class in the repository defines pause, so
AttributeError is raised before the drain, the wildcard unsubscribe, the
sweep, or the running flag update can happen. -/
def stopErr : String := "AttributeError in stop: SQLiteYapper has no attribute pause"

/-- SQLiteYapper.stop: raises AttributeError immediately (see stopErr);
the store state and the running flag are left untouched. -/
def stop (db : DB) (c : String) (running : Bool) : Except String Unit × DB × Bool :=
  let _ := c
  (Except.error stopErr, db, running)

/-- One broker operation against the shared SQLite store, for
reachability.  SQLiteYapper.stop raises before issuing any statement, so
it adds no reachable store states. -/
inductive Op where
  | emit (label data : String)
  | subscribe (c label : String)
  | unsubscribe (c label : String)
  | listen (c : String)
  | sweep
deriving DecidableEq, Repr

/-- The store state after one operation (outputs and exceptions
discarded; the state kept is the one the committed statements left). -/
def apply (db : DB) : Op → DB
  | .emit l d => (emit db l d).2
  | .subscribe c l => subscribe db c l
  | .unsubscribe c l => (unsubscribe db c l).2
  | .listen c => (listen db c).2
  | .sweep => sweep db

/-- A store state reachable from the freshly initialized store by some
sequence of broker operations. -/
def Reachable (db : DB) : Prop :=
  ∃ ops : List Op, db = ops.foldl apply empty

end SQLite

/-! General list helpers about composed filters, used to reason about a
DELETE statement followed by a membership query. -/

/-- Filtering by q and then by p yields nothing when q excludes p. -/
theorem filter_filter_nil {α : Type} (p q : α → Bool)
    (h : ∀ a, q a = true → p a = false) (l : List α) :
    (l.filter q).filter p = [] := by
  induction l with
  | nil => rfl
  | cons a t ih =>
    by_cases hq : q a = true
    · rw [List.filter_cons_of_pos hq, List.filter_cons_of_neg (by simp [h a hq]), ih]
    · rw [List.filter_cons_of_neg (by simpa using hq), ih]

/-- Filtering by q and then by p is just filtering by p when q keeps
everything p keeps. -/
theorem filter_filter_keep {α : Type} (p q : α → Bool)
    (h : ∀ a, p a = true → q a = true) (l : List α) :
    (l.filter q).filter p = l.filter p := by
  induction l with
  | nil => rfl
  | cons a t ih =>
    by_cases hp : p a = true
    · rw [List.filter_cons_of_pos (h a hp), List.filter_cons_of_pos hp,
        List.filter_cons_of_pos hp, ih]
    · by_cases hq : q a = true
      · rw [List.filter_cons_of_pos hq, List.filter_cons_of_neg (by simpa using hp),
          List.filter_cons_of_neg (by simpa using hp), ih]
      · rw [List.filter_cons_of_neg (by simpa using hq),
          List.filter_cons_of_neg (by simpa using hp), ih]

/-! Structural lemmas about the PostgreSQL backend operations, used for
the invariant reasoning below. -/

namespace PG

theorem emit_events (db : DB) (l d : String) :
    (emit db l d).2.events = db.events ++ [⟨db.nextId, l, d⟩] := by
  unfold emit
  dsimp only
  split <;> rfl

theorem emit_subscriptions (db : DB) (l d : String) :
    (emit db l d).2.subscriptions = db.subscriptions := by
  unfold emit
  dsimp only
  split <;> rfl

theorem emit_unread (db : DB) (l d : String) :
    (emit db l d).2.unread
      = db.unread ++ (subscribersOf db l).map (fun c => ⟨c, db.nextId⟩) := by
  unfold emit
  dsimp only
  split
  · next hempty =>
    have h0 : subscribersOf db l = [] := by
      simpa [List.isEmpty_iff] using hempty
    simp [h0]
  · rfl

theorem subscribe_events (db : DB) (c l : String) :
    (subscribe db c l).2.events = db.events := by
  unfold subscribe
  split <;> rfl

theorem subscribe_unread (db : DB) (c l : String) :
    (subscribe db c l).2.unread = db.unread := by
  unfold subscribe
  split <;> rfl

/-- Every delivery marker references an event row that still exists. -/
def MarkersLive (db : DB) : Prop :=
  ∀ m ∈ db.unread, ∃ e ∈ db.events, e.id = m.event_id

theorem markersLive_sweep (db : DB) (h : MarkersLive db) : MarkersLive (sweep db).2 := by
  intro m hm
  obtain ⟨e, he, heq⟩ := h m hm
  refine ⟨e, ?_, heq⟩
  refine List.mem_filter.mpr ⟨he, ?_⟩
  exact List.any_eq_true.mpr ⟨m, hm, by simp [heq]⟩

theorem markersLive_apply (db : DB) (op : Op) (h : MarkersLive db) :
    MarkersLive (apply db op) := by
  cases op with
  | emit l d =>
    intro m hm
    rw [show apply db (Op.emit l d) = (emit db l d).2 from rfl] at hm ⊢
    rw [emit_unread] at hm
    rw [emit_events]
    rcases List.mem_append.mp hm with hold | hnew
    · obtain ⟨e, he, heq⟩ := h m hold
      exact ⟨e, List.mem_append_left _ he, heq⟩
    · obtain ⟨c, _, rfl⟩ := List.mem_map.mp hnew
      exact ⟨⟨db.nextId, l, d⟩, List.mem_append_right _ (List.mem_singleton.mpr rfl), rfl⟩
  | subscribe c l =>
    intro m hm
    rw [show apply db (Op.subscribe c l) = (subscribe db c l).2 from rfl] at hm ⊢
    rw [subscribe_unread] at hm
    rw [subscribe_events]
    exact h m hm
  | unsubscribe c l =>
    show MarkersLive (unsubscribe db c l).2
    unfold unsubscribe
    split
    · exact fun m hm => h m hm
    · exact fun m hm => h m hm
  | listen c =>
    intro m hm
    have hm2 : m ∈ db.unread := (List.mem_filter.mp hm).1
    exact h m hm2
  | sweep =>
    exact markersLive_sweep db h

theorem markersLive_foldl (ops : List Op) :
    ∀ db : DB, MarkersLive db → MarkersLive (ops.foldl apply db) := by
  induction ops with
  | nil => intro db h; exact h
  | cons op t ih =>
    intro db h
    exact ih (apply db op) (markersLive_apply db op h)

theorem markersLive_empty : MarkersLive empty := by
  intro m hm
  simp [empty] at hm

theorem markersLive_reachable (db : DB) (h : Reachable db) : MarkersLive db := by
  obtain ⟨ops, rfl⟩ := h
  exact markersLive_foldl ops empty markersLive_empty

end PG

/-! Structural lemmas about the SQLite backend.  No execution path of the
SQLite backend ever inserts a delivery marker (the only insert into
unread raises, see SQLite.emit), so the unread table of every reachable
SQLite store is empty. -/

namespace SQLite

theorem unread_apply (db : DB) (op : Op) (h : db.unread = []) :
    (apply db op).unread = [] := by
  cases op with
  | emit l d =>
    show (emit db l d).2.unread = []
    unfold emit
    dsimp only
    split <;> exact h
  | subscribe c l =>
    show (subscribe db c l).unread = []
    unfold subscribe
    split <;> exact h
  | unsubscribe c l =>
    show (unsubscribe db c l).2.unread = []
    unfold unsubscribe
    dsimp only
    split
    · exact h
    · show List.filter _ db.unread = []
      rw [h]
      rfl
  | listen c =>
    show (clear_unread db c).unread = []
    show List.filter _ db.unread = []
    rw [h]
    rfl
  | sweep =>
    exact h

theorem unread_foldl (ops : List Op) :
    ∀ db : DB, db.unread = [] → (ops.foldl apply db).unread = [] := by
  induction ops with
  | nil => intro db h; exact h
  | cons op t ih =>
    intro db h
    exact ih (apply db op) (unread_apply db op h)

theorem unread_reachable (db : DB) (h : Reachable db) : db.unread = [] := by
  obtain ⟨ops, rfl⟩ := h
  exact unread_foldl ops empty rfl

end SQLite

/-! The claims. -/

/-- Claim C1: subscribe then emit then listen should yield exactly the one
emitted event, and a second listen should yield the empty list.  Neither
backend satisfies this.  In the PostgreSQL backend every step of the
scenario raises ProgrammingError at fetchall: subscribe raises after
committing the row, emit raises after committing the event and the one
marker (the marker is in the store, as the last conjunct shows), and
listen raises inside _clear_unread, so the emitted event is never
returned to the caller.  In the SQLite backend emit raises as soon as
the label has a subscriber (it binds the fetched row dict as event_id
and omits the NOT NULL label column of unread) and listen always raises
KeyError (it reads the key result from an _execute result whose keys are
fetchall, lastrowid and rowcount), contradicting the expectations of
tests/test_sqlite.py. -/
theorem c1_subscribe_emit_listen (c l p : String) :
    ((PG.subscribe PG.empty c l).1 = Except.error PG.noResultsErr)
    ∧ ((PG.emit (PG.subscribe PG.empty c l).2 l p).1 = Except.error PG.noResultsErr)
    ∧ ((PG.emit (PG.subscribe PG.empty c l).2 l p).2.unread = [⟨c, 1⟩])
    ∧ ((PG.listen (PG.emit (PG.subscribe PG.empty c l).2 l p).2 c).1
        = Except.error PG.noResultsErr)
    ∧ ((SQLite.emit (SQLite.subscribe SQLite.empty c l) l p).1 = Except.error SQLite.emitErr)
    ∧ ((SQLite.listen (SQLite.emit (SQLite.subscribe SQLite.empty c l) l p).2 c).1
        = Except.error SQLite.listenErr) := by
  refine ⟨?_, ?_, ?_, ?_, ?_, ?_⟩
  · simp [PG.subscribe, PG.empty]
  · simp [PG.emit, PG.subscribe, PG.empty, PG.subscribersOf]
  · simp [PG.emit, PG.subscribe, PG.empty, PG.subscribersOf]
  · simp [PG.listen]
  · simp [SQLite.emit, SQLite.subscribe, SQLite.empty, SQLite.subscribersOf]
  · simp [SQLite.listen]

/-- Claim C2: the two backends should have identical observable broker
semantics, with wildcard unsubscribe always sweeping and markers keyed by
exactly (client_id, event_id).  Neither half holds.  From the same
logical state (client c subscribed to label a, plus one orphan event on
label b with no marker), the wildcard unsubscribe of the PostgreSQL
backend commits the subscription delete and then raises at fetchall, so
its self._sweep() is dead code and the orphan event survives; the
wildcard unsubscribe of the SQLite backend raises a parameter-count
error before deleting anything, so even the subscription row survives.
The committed store effects differ between the backends, and no wildcard
unsubscribe ever sweeps in either.  The marker schemas also differ:
SQLite.MarkerRow carries a label column and a composite foreign key on
(client_id, label), PG.MarkerRow is keyed by (client_id, event_id)
alone. -/
theorem c2_backend_divergence :
    ((PG.unsubscribe (PG.emit (PG.subscribe PG.empty "c" "a").2 "b" "x").2 "c" "*").1
        = Except.error PG.noResultsErr)
    ∧ ((PG.unsubscribe (PG.emit (PG.subscribe PG.empty "c" "a").2 "b" "x").2 "c" "*").2.subscriptions
        = [])
    ∧ ((PG.unsubscribe (PG.emit (PG.subscribe PG.empty "c" "a").2 "b" "x").2 "c" "*").2.events
        = [⟨1, "b", "x"⟩])
    ∧ ((PG.unsubscribe (PG.emit (PG.subscribe PG.empty "c" "a").2 "b" "x").2 "c" "*").2.unread
        = [])
    ∧ (SQLite.unsubscribe (SQLite.emit (SQLite.subscribe SQLite.empty "c" "a") "b" "x").2 "c" "*"
        = (Except.error SQLite.unsubscribeErr,
           (SQLite.emit (SQLite.subscribe SQLite.empty "c" "a") "b" "x").2))
    ∧ ((SQLite.emit (SQLite.subscribe SQLite.empty "c" "a") "b" "x").2.subscriptions
        = [⟨"c", "a"⟩])
    ∧ ((SQLite.emit (SQLite.subscribe SQLite.empty "c" "a") "b" "x").2.events
        = [⟨1, "b", "x"⟩]) := by
  refine ⟨?_, ?_, ?_, ?_, ?_, ?_, ?_⟩ <;> rfl

/-- Claim C3: after subscribe(c, a), emit(a, p1), emit(a, p2), listen(c)
should return the event with payload p1 before the event with payload p2,
in ascending event id order.  Neither backend ever returns that list.
In the PostgreSQL backend the two markers are committed in emission
order (first two conjuncts), but listen raises ProgrammingError inside
_clear_unread before its return statement, so no ordered sequence is
ever produced.  In the SQLite backend the first emit already raises
because the label has a subscriber, and listen always raises KeyError. -/
theorem c3_listen_order (c p1 p2 : String) :
    ((PG.emit (PG.emit (PG.subscribe PG.empty c "a").2 "a" p1).2 "a" p2).2.events
        = [⟨1, "a", p1⟩, ⟨2, "a", p2⟩])
    ∧ ((PG.emit (PG.emit (PG.subscribe PG.empty c "a").2 "a" p1).2 "a" p2).2.unread
        = [⟨c, 1⟩, ⟨c, 2⟩])
    ∧ ((PG.listen (PG.emit (PG.emit (PG.subscribe PG.empty c "a").2 "a" p1).2 "a" p2).2 c).1
        = Except.error PG.noResultsErr)
    ∧ ((SQLite.emit (SQLite.subscribe SQLite.empty c "a") "a" p1).1
        = Except.error SQLite.emitErr)
    ∧ ((SQLite.listen
          (SQLite.emit (SQLite.emit (SQLite.subscribe SQLite.empty c "a") "a" p1).2 "a" p2).2
          c).1 = Except.error SQLite.listenErr) := by
  refine ⟨?_, ?_, ?_, ?_, ?_⟩
  · simp [PG.emit, PG.subscribe, PG.empty, PG.subscribersOf]
  · simp [PG.emit, PG.subscribe, PG.empty, PG.subscribersOf]
  · simp [PG.listen]
  · simp [SQLite.emit, SQLite.subscribe, SQLite.empty, SQLite.subscribersOf]
  · simp [SQLite.listen]

/-- Claim C4: stop should drain the client with a final listen, then
unsubscribe the wildcard, then sweep, and finally set running to false,
leaving the client with no subscriptions and no delivery markers.
Neither backend does this.  The PostgreSQL stop raises ProgrammingError
inside the final listen (in _clear_unread, after committing the marker
delete), so the wildcard unsubscribe, the sweep and the base class stop
never run: for every state the subscriptions table is untouched and the
running flag keeps its value, and concretely a client with one
subscription still has it, with running still true, after stop.  The
SQLite stop never gets past its first line: it calls self.pause(), a
method no class in the repository defines, so it raises AttributeError
with the store and the running flag untouched, contradicting
tests/test_sqlite.py (test_running_state and test_stop_cleans_up). -/
theorem c4_stop_lifecycle (db : PG.DB) (c : String) (r : Bool)
    (sdb : SQLite.DB) (c2 : String) (r2 : Bool) :
    ((PG.stop db c r).1 = Except.error PG.noResultsErr)
    ∧ ((PG.stop db c r).2.1.subscriptions = db.subscriptions)
    ∧ ((PG.stop db c r).2.2 = r)
    ∧ ((PG.stop (PG.subscribe PG.empty "c" "a").2 "c" true).2.1.subscriptions
        = [⟨"c", "a"⟩])
    ∧ ((PG.stop (PG.subscribe PG.empty "c" "a").2 "c" true).2.2 = true)
    ∧ (SQLite.stop sdb c2 r2 = (Except.error SQLite.stopErr, sdb, r2)) := by
  exact ⟨rfl, rfl, rfl, rfl, rfl, rfl⟩

/-- Claim C5: emitting on a label with no subscribers never fails, creates
no delivery markers, and leaves the new event sweep-eligible, so that an
immediate sweep removes its row.  Both backends satisfy this: with zero
subscribers the PostgreSQL if-guard skips executemany so emit returns
normally, the SQLite executemany over an empty parameter list executes
nothing, no marker is created, and in both backends the sweep DELETE
commits and removes the new event row (the PostgreSQL _sweep then raises
at fetchall, but its delete is already in the store).  Stated for every
starting state in which no client is subscribed to the label and every
existing marker references an already-assigned event id (true of every
reachable store). -/
theorem c5_emit_without_subscribers (pdb : PG.DB) (sdb : SQLite.DB) (l d : String)
    (hp : PG.subscribersOf pdb l = [])
    (hpb : ∀ m ∈ pdb.unread, m.event_id < pdb.nextId)
    (hs : SQLite.subscribersOf sdb l = [])
    (hsb : ∀ m ∈ sdb.unread, m.event_id < sdb.nextId) :
    ((PG.emit pdb l d).1 = Except.ok ())
    ∧ ((PG.emit pdb l d).2.unread = pdb.unread)
    ∧ ((PG.sweep (PG.emit pdb l d).2).2.events.filter (fun e => e.id == pdb.nextId) = [])
    ∧ ((SQLite.emit sdb l d).1 = Except.ok ())
    ∧ ((SQLite.emit sdb l d).2.unread = sdb.unread)
    ∧ ((SQLite.sweep (SQLite.emit sdb l d).2).events.filter (fun e => e.id == sdb.nextId) = []) := by
  have hemit : PG.emit pdb l d = (Except.ok (), { pdb with events := pdb.events ++ [⟨pdb.nextId, l, d⟩], nextId := pdb.nextId + 1 }) := by
    unfold PG.emit
    have h2 : PG.subscribersOf { pdb with events := pdb.events ++ [⟨pdb.nextId, l, d⟩], nextId := pdb.nextId + 1 } l = PG.subscribersOf pdb l := rfl
    simp [h2, hp]
  have hsemit : SQLite.emit sdb l d = (Except.ok (), { sdb with events := sdb.events ++ [⟨sdb.nextId, l, d⟩], nextId := sdb.nextId + 1 }) := by
    unfold SQLite.emit
    have h2 : SQLite.subscribersOf { sdb with events := sdb.events ++ [⟨sdb.nextId, l, d⟩], nextId := sdb.nextId + 1 } l = SQLite.subscribersOf sdb l := rfl
    simp [h2, hs]
  refine ⟨?_, ?_, ?_, ?_, ?_, ?_⟩
  · rw [hemit]
  · rw [hemit]
  · rw [hemit]
    show (((pdb.events ++ _).filter _).filter _) = []
    refine filter_filter_nil _ _ ?_ _
    intro a ha
    simp only [List.any_eq_true] at ha
    obtain ⟨m, hm, hme⟩ := ha
    have := hpb m hm
    simp only [beq_iff_eq] at hme
    simp only [beq_eq_false_iff_ne, ne_eq]
    omega
  · rw [hsemit]
  · rw [hsemit]
  · rw [hsemit]
    show (((sdb.events ++ _).filter _).filter _) = []
    refine filter_filter_nil _ _ ?_ _
    intro a ha
    simp only [List.any_eq_true] at ha
    obtain ⟨m, hm, hme⟩ := ha
    have := hsb m hm
    simp only [beq_iff_eq] at hme
    simp only [beq_eq_false_iff_ne, ne_eq]
    omega

/-- Witness for C5: the hypotheses hold in the freshly initialized stores
with label unwatched, and the conclusion evaluates there. -/
theorem c5_emit_without_subscribers_witness :
    ((PG.emit PG.empty "unwatched" "x").1 = Except.ok ())
    ∧ ((PG.emit PG.empty "unwatched" "x").2.unread = PG.empty.unread)
    ∧ ((PG.sweep (PG.emit PG.empty "unwatched" "x").2).2.events.filter
        (fun e => e.id == PG.empty.nextId) = [])
    ∧ ((SQLite.emit SQLite.empty "unwatched" "x").1 = Except.ok ())
    ∧ ((SQLite.emit SQLite.empty "unwatched" "x").2.unread = SQLite.empty.unread)
    ∧ ((SQLite.sweep (SQLite.emit SQLite.empty "unwatched" "x").2).events.filter
        (fun e => e.id == SQLite.empty.nextId) = []) :=
  c5_emit_without_subscribers PG.empty SQLite.empty "unwatched" "x" rfl
    (by intro m hm; simp [PG.empty] at hm)
    rfl
    (by intro m hm; simp [SQLite.empty] at hm)

/-- Claim C6: unsubscribe(client, wildcard) should remove every
subscription row of the client and then sweep away every event referenced
by no marker.  Neither backend sweeps.  The PostgreSQL wildcard
unsubscribe does commit the DELETE of all the subscription rows of the
client, but then raises at fetchall, so the self._sweep() on line 150
never runs: the events table is untouched for every state, and
concretely an orphan event with no marker survives the call.  The SQLite
wildcard unsubscribe raises a parameter-count error (the wildcard branch
executes a one-placeholder DELETE with a two-element parameter tuple),
deleting nothing and never reaching the sweep: after the call the
subscription of test_client is still present. -/
theorem c6_wildcard_unsubscribe_sweeps (db : PG.DB) (c : String) :
    ((PG.unsubscribe db c "*").1 = Except.error PG.noResultsErr)
    ∧ ((PG.unsubscribe db c "*").2.subscriptions.filter (fun s => s.client_id == c) = [])
    ∧ ((PG.unsubscribe db c "*").2.events = db.events)
    ∧ ((PG.unsubscribe (PG.emit PG.empty "b" "x").2 "c" "*").2.events = [⟨1, "b", "x"⟩])
    ∧ ((PG.unsubscribe (PG.emit PG.empty "b" "x").2 "c" "*").2.unread = [])
    ∧ (SQLite.unsubscribe (SQLite.subscribe SQLite.empty "test_client" "a") "test_client" "*"
        = (Except.error SQLite.unsubscribeErr, SQLite.subscribe SQLite.empty "test_client" "a"))
    ∧ ((SQLite.subscribe SQLite.empty "test_client" "a").subscriptions
        = [⟨"test_client", "a"⟩]) := by
  refine ⟨rfl, ?_, rfl, rfl, rfl, rfl, rfl⟩
  · show ((db.subscriptions.filter _).filter _) = []
    exact filter_filter_nil _ _ (by intro a ha; simpa using ha) _

/-- Claim C7: subscribing twice should leave exactly one subscription row,
and a subsequent emit should deliver exactly once.  In both backends the
double subscribe leaves the single committed row (both upserts are
idempotent; the PostgreSQL subscribe raises after committing, which does
not change the store), and the PostgreSQL emit then commits exactly the
one marker for the new event before its own fetchall raise, matching the
claim at the marker level.  The SQLite emit, however, raises before any
marker is written and creates none at all, so the event is never
delivered rather than delivered exactly once. -/
theorem c7_subscribe_idempotent (c l d : String) :
    ((PG.subscribe (PG.subscribe PG.empty c l).2 c l).2.subscriptions = [⟨c, l⟩])
    ∧ ((PG.emit (PG.subscribe (PG.subscribe PG.empty c l).2 c l).2 l d).2.unread = [⟨c, 1⟩])
    ∧ ((SQLite.subscribe (SQLite.subscribe SQLite.empty c l) c l).subscriptions = [⟨c, l⟩])
    ∧ ((SQLite.emit (SQLite.subscribe (SQLite.subscribe SQLite.empty c l) c l) l d).1
        = Except.error SQLite.emitErr)
    ∧ ((SQLite.emit (SQLite.subscribe (SQLite.subscribe SQLite.empty c l) c l) l d).2.unread
        = []) := by
  refine ⟨?_, ?_, ?_, ?_, ?_⟩
  · simp [PG.subscribe, PG.empty]
  · simp [PG.emit, PG.subscribe, PG.empty, PG.subscribersOf]
  · simp [SQLite.subscribe, SQLite.empty]
  · simp [SQLite.emit, SQLite.subscribe, SQLite.empty, SQLite.subscribersOf]
  · simp [SQLite.emit, SQLite.subscribe, SQLite.empty, SQLite.subscribersOf]

/-- Claim C8: in every reachable state, each delivery marker references an
event that still exists, markers are created by emit only for the clients
subscribed at that instant, and a later subscription never retroactively
gains old events.  Reachability is built from the committed store effects
of the real methods: emit commits its markers before raising, subscribe
commits its upsert before raising, unsubscribe commits only the
subscription delete (its sweep call is dead code), listen commits only
the per-client marker delete, and the standalone sweep effect is included
even though no PostgreSQL call site ever reaches _sweep, which only
enlarges the modelled reachable set.  On this state space every marker
references a live event, emit fans out exactly to the snapshot of the
current subscribers, subscribing commits no marker and does not change
the committed effect of a later listen, and listen never returns events
to any caller at all (it raises inside _clear_unread), so a late
subscriber can never receive an earlier event.  In the SQLite backend the
unread table of every reachable state is empty (the only insert into it
always raises), so the marker invariant holds vacuously there. -/
theorem c8_marker_provenance (db : PG.DB) (hdb : PG.Reachable db)
    (m : PG.MarkerRow) (hm : m ∈ db.unread)
    (l d c : String) (sdb : SQLite.DB) (hs : SQLite.Reachable sdb) :
    (∃ e ∈ db.events, e.id = m.event_id)
    ∧ ((PG.emit db l d).2.unread
        = db.unread ++ (PG.subscribersOf db l).map (fun cid => ⟨cid, db.nextId⟩))
    ∧ ((PG.subscribe db c l).2.unread = db.unread)
    ∧ ((PG.listen (PG.subscribe db c l).2 c).2.unread = (PG.listen db c).2.unread)
    ∧ ((PG.listen db c).1 = Except.error PG.noResultsErr)
    ∧ (sdb.unread = []) := by
  refine ⟨PG.markersLive_reachable db hdb m hm, PG.emit_unread db l d,
    PG.subscribe_unread db c l, ?_, rfl, SQLite.unread_reachable sdb hs⟩
  show (((PG.subscribe db c l).2.unread.filter _)) = ((db.unread.filter _))
  rw [PG.subscribe_unread]

/-- Witness for C8: the state reached by subscribe(w1, a) then emit(a, p)
is reachable, carries the marker (w1, 1), and the conclusion evaluates
there; the corresponding SQLite state is reachable as well. -/
theorem c8_marker_provenance_witness :
    (∃ e ∈ ([PG.Op.subscribe "w1" "a", PG.Op.emit "a" "p"].foldl PG.apply PG.empty).events,
        e.id = (⟨"w1", 1⟩ : PG.MarkerRow).event_id)
    ∧ ((PG.emit ([PG.Op.subscribe "w1" "a", PG.Op.emit "a" "p"].foldl PG.apply PG.empty) "a" "q").2.unread
        = ([PG.Op.subscribe "w1" "a", PG.Op.emit "a" "p"].foldl PG.apply PG.empty).unread
          ++ (PG.subscribersOf ([PG.Op.subscribe "w1" "a", PG.Op.emit "a" "p"].foldl PG.apply PG.empty) "a").map
            (fun cid => ⟨cid, ([PG.Op.subscribe "w1" "a", PG.Op.emit "a" "p"].foldl PG.apply PG.empty).nextId⟩))
    ∧ ((PG.subscribe ([PG.Op.subscribe "w1" "a", PG.Op.emit "a" "p"].foldl PG.apply PG.empty) "w2" "a").2.unread
        = ([PG.Op.subscribe "w1" "a", PG.Op.emit "a" "p"].foldl PG.apply PG.empty).unread)
    ∧ ((PG.listen (PG.subscribe ([PG.Op.subscribe "w1" "a", PG.Op.emit "a" "p"].foldl PG.apply PG.empty) "w2" "a").2 "w2").2.unread
        = (PG.listen ([PG.Op.subscribe "w1" "a", PG.Op.emit "a" "p"].foldl PG.apply PG.empty) "w2").2.unread)
    ∧ ((PG.listen ([PG.Op.subscribe "w1" "a", PG.Op.emit "a" "p"].foldl PG.apply PG.empty) "w2").1
        = Except.error PG.noResultsErr)
    ∧ (([SQLite.Op.subscribe "w1" "a", SQLite.Op.emit "a" "p"].foldl SQLite.apply SQLite.empty).unread = []) :=
  c8_marker_provenance
    ([PG.Op.subscribe "w1" "a", PG.Op.emit "a" "p"].foldl PG.apply PG.empty)
    ⟨[PG.Op.subscribe "w1" "a", PG.Op.emit "a" "p"], rfl⟩
    ⟨"w1", 1⟩ (by decide) "a" "q" "w2"
    ([SQLite.Op.subscribe "w1" "a", SQLite.Op.emit "a" "p"].foldl SQLite.apply SQLite.empty)
    ⟨[SQLite.Op.subscribe "w1" "a", SQLite.Op.emit "a" "p"], rfl⟩

/-- Claim C9: after listen, the store holds zero delivery markers for the
client.  The per-client DELETE of _clear_unread commits in both backends
before any raise (in PostgreSQL the raise is the fetchall after that very
DELETE, in SQLite it is the later KeyError), and it deletes by client id
alone, so from any store state, including one in which markers were added
after the read, clearing leaves no marker of the client; consequently the
state listen leaves behind has no marker of the client in either backend,
and where listen raises no successful listen exists, so the claim also
holds vacuously there. -/
theorem c9_listen_clears_all_markers (db : PG.DB) (c : String) (sdb : SQLite.DB) :
    ((PG.listen db c).2.unread.filter (fun m => m.client_id == c) = [])
    ∧ ((PG.clear_unread db c).2.unread.filter (fun m => m.client_id == c) = [])
    ∧ ((SQLite.listen sdb c).2.unread.filter (fun m => m.client_id == c) = []) := by
  refine ⟨?_, ?_, ?_⟩
  · show ((db.unread.filter _).filter _) = []
    exact filter_filter_nil _ _ (by intro a ha; simpa using ha) _
  · show ((db.unread.filter _).filter _) = []
    exact filter_filter_nil _ _ (by intro a ha; simpa using ha) _
  · show ((sdb.unread.filter _).filter _) = []
    exact filter_filter_nil _ _ (by intro a ha; simpa using ha) _

/-- Claim C10: the operations subscribe, unsubscribe (wildcard included,
since the label is universally quantified) and listen invoked by client ca
leave the subscription rows and the delivery markers of a distinct client
cb unchanged, in both backends; this holds of the committed store effects,
before and independently of the exceptions most of these methods then
raise.  Only the events table is ever touched on behalf of other clients
(by the sweep inside the SQLite concrete-label unsubscribe), as the claim
allows. -/
theorem c10_client_isolation (ca cb : String) (h : ca ≠ cb) (l : String)
    (db : PG.DB) (sdb : SQLite.DB) :
    ((PG.subscribe db ca l).2.subscriptions.filter (fun r => r.client_id == cb)
        = db.subscriptions.filter (fun r => r.client_id == cb))
    ∧ ((PG.subscribe db ca l).2.unread = db.unread)
    ∧ ((PG.unsubscribe db ca l).2.subscriptions.filter (fun r => r.client_id == cb)
        = db.subscriptions.filter (fun r => r.client_id == cb))
    ∧ ((PG.unsubscribe db ca l).2.unread = db.unread)
    ∧ ((PG.listen db ca).2.subscriptions = db.subscriptions)
    ∧ ((PG.listen db ca).2.unread.filter (fun m => m.client_id == cb)
        = db.unread.filter (fun m => m.client_id == cb))
    ∧ ((SQLite.subscribe sdb ca l).subscriptions.filter (fun r => r.client_id == cb)
        = sdb.subscriptions.filter (fun r => r.client_id == cb))
    ∧ ((SQLite.subscribe sdb ca l).unread = sdb.unread)
    ∧ ((SQLite.unsubscribe sdb ca l).2.subscriptions.filter (fun r => r.client_id == cb)
        = sdb.subscriptions.filter (fun r => r.client_id == cb))
    ∧ ((SQLite.unsubscribe sdb ca l).2.unread.filter (fun m => m.client_id == cb)
        = sdb.unread.filter (fun m => m.client_id == cb))
    ∧ ((SQLite.listen sdb ca).2.subscriptions = sdb.subscriptions)
    ∧ ((SQLite.listen sdb ca).2.unread.filter (fun m => m.client_id == cb)
        = sdb.unread.filter (fun m => m.client_id == cb)) := by
  have hba : ∀ x : String, (x == cb) = true → (x == ca) = false := by
    intro x hx
    simp only [beq_iff_eq] at hx
    subst hx
    simp [beq_eq_false_iff_ne]
    exact fun hc => h hc.symm
  refine ⟨?_, ?_, ?_, ?_, rfl, ?_, ?_, ?_, ?_, ?_, rfl, ?_⟩
  · unfold PG.subscribe
    split
    · rfl
    · rw [List.filter_append]
      have h1 : List.filter (fun r => r.client_id == cb) [(⟨ca, l⟩ : SubRow)] = [] := by
        simp [beq_eq_false_iff_ne]
        exact fun hc => h hc
      rw [h1, List.append_nil]
  · unfold PG.subscribe
    split <;> rfl
  · unfold PG.unsubscribe
    split
    · show ((db.subscriptions.filter _).filter _) = _
      exact filter_filter_keep _ _ (by intro a ha; simp [hba a.client_id ha]) _
    · show ((db.subscriptions.filter _).filter _) = _
      refine filter_filter_keep _ _ ?_ _
      intro a ha
      simp [hba a.client_id ha]
  · unfold PG.unsubscribe
    split <;> rfl
  · show ((db.unread.filter _).filter _) = _
    refine filter_filter_keep _ _ ?_ _
    intro a ha
    simp [hba a.client_id ha]
  · unfold SQLite.subscribe
    split
    · rfl
    · rw [List.filter_append]
      have h1 : List.filter (fun r => r.client_id == cb) [(⟨ca, l⟩ : SubRow)] = [] := by
        simp [beq_eq_false_iff_ne]
        exact fun hc => h hc
      rw [h1, List.append_nil]
  · unfold SQLite.subscribe
    split <;> rfl
  · unfold SQLite.unsubscribe
    split
    · rfl
    · show ((sdb.subscriptions.filter _).filter _) = _
      refine filter_filter_keep _ _ ?_ _
      intro a ha
      simp [hba a.client_id ha]
  · unfold SQLite.unsubscribe
    split
    · rfl
    · show ((sdb.unread.filter _).filter _) = _
      refine filter_filter_keep _ _ ?_ _
      intro a ha
      simp [hba a.client_id ha]
  · show ((sdb.unread.filter _).filter _) = _
    refine filter_filter_keep _ _ ?_ _
    intro a ha
    simp [hba a.client_id ha]

/-- Witness for C10: the two client ids differ and the conclusion
evaluates at a pair of concrete stores. -/
theorem c10_client_isolation_witness :
    ((PG.subscribe PG.empty "c1" "a").2.subscriptions.filter (fun r => r.client_id == "c2")
        = PG.empty.subscriptions.filter (fun r => r.client_id == "c2"))
    ∧ ((PG.subscribe PG.empty "c1" "a").2.unread = PG.empty.unread)
    ∧ ((PG.unsubscribe PG.empty "c1" "a").2.subscriptions.filter (fun r => r.client_id == "c2")
        = PG.empty.subscriptions.filter (fun r => r.client_id == "c2"))
    ∧ ((PG.unsubscribe PG.empty "c1" "a").2.unread = PG.empty.unread)
    ∧ ((PG.listen PG.empty "c1").2.subscriptions = PG.empty.subscriptions)
    ∧ ((PG.listen PG.empty "c1").2.unread.filter (fun m => m.client_id == "c2")
        = PG.empty.unread.filter (fun m => m.client_id == "c2"))
    ∧ ((SQLite.subscribe SQLite.empty "c1" "a").subscriptions.filter (fun r => r.client_id == "c2")
        = SQLite.empty.subscriptions.filter (fun r => r.client_id == "c2"))
    ∧ ((SQLite.subscribe SQLite.empty "c1" "a").unread = SQLite.empty.unread)
    ∧ ((SQLite.unsubscribe SQLite.empty "c1" "a").2.subscriptions.filter (fun r => r.client_id == "c2")
        = SQLite.empty.subscriptions.filter (fun r => r.client_id == "c2"))
    ∧ ((SQLite.unsubscribe SQLite.empty "c1" "a").2.unread.filter (fun m => m.client_id == "c2")
        = SQLite.empty.unread.filter (fun m => m.client_id == "c2"))
    ∧ ((SQLite.listen SQLite.empty "c1").2.subscriptions = SQLite.empty.subscriptions)
    ∧ ((SQLite.listen SQLite.empty "c1").2.unread.filter (fun m => m.client_id == "c2")
        = SQLite.empty.unread.filter (fun m => m.client_id == "c2")) :=
  c10_client_isolation "c1" "c2" (by decide) "a" PG.empty SQLite.empty

end Yapper
